import Mathlib

/-!
Verification of the mrv32 host shim (src/main.c) of raspiduino/mrv32:
a mini-rv32ima-based RISC-V emulator glued to the MRE platform.

The development shallowly embeds the functions of src/main.c that the
claims touch: the file-backed memory bus (store4/load4, src lines
238-304), the MMIO adapter (HandleControlStore, HandleControlLoad,
HandleOtherCSRWrite, src lines 427-470), the exception hooks
(HandleException and the MINIRV32_POSTEXEC macro, src lines 124 and
417-425), the step-driver callback (socRun, src lines 169-189) and the
core initialisation (handle_sysevt, src lines 338-344).

Machine integers are modelled as Nat with explicit `% 2 ^ w` where
overflow matters.  The console sink receives byte values (Nat < 256);
a C string passed to console_str_in contributes its bytes up to the
first NUL.  The serial-input FIFO is a list, oldest element first.
MiniRV32IMAStep lives in the vendored header mini-rv32ima.h which is
not under src/, so where it is needed it is either taken as an opaque-
free function parameter or modelled from the spec (each such definition
says so in its doc comment).
-/

/-! ## Constants from src/main.c -/

/-- RAM size in bytes (src line 47: `const VMUINT32 RAM_SIZE = 12582912`). -/
def RAM_SIZE : Nat := 12582912

/-- Device-tree blob size in bytes (src line 31). -/
def DTB_SIZE : Nat := 1536

/-- Time divisor (src line 32). -/
def TIME_DIVISOR : Nat := 1

/-- Instructions per step-driver tick, non-WIN32 build (src line 37). -/
def INSTRS_PER_FLIP : Nat := 2048

/-- Modelled from the spec: the guest-physical base of RAM (`RAM_BASE`).
The value comes from mini-rv32ima.h (MINIRV32_RAM_IMAGE_OFFSET), which is
not under src/; the spec's memory map places RAM at this conventional
address. -/
def MINIRV32_RAM_IMAGE_OFFSET : Nat := 0x80000000

/-- Modelled from the spec: byte size of the fixed-layout HartState record
(struct MiniRV32IMAState of mini-rv32ima.h, not under src/): 49 32-bit
fields (regs[32], pc, mstatus, cyclel/h, timerl/h, timermatchl/h,
mscratch, mtvec, mie, mip, mepc, mtval, mcause, extraflags). -/
def sizeofMiniRV32IMAState : Nat := 196

/-! ## Console messages (byte codes of the C string literals) -/

/-- Byte codes of "POWEROFF!\n" (console message, src line 185). -/
def POWEROFF_MSG : List Nat := [80, 79, 87, 69, 82, 79, 70, 70, 33, 10]

/-- Byte codes of "Unknown failure\n" (console message, src line 186). -/
def UNKNOWN_FAILURE_MSG : List Nat :=
  [85, 110, 107, 110, 111, 119, 110, 32, 102, 97, 105, 108, 117, 114, 101, 10]

/-- Byte codes of "FAULT\n" (console message, src line 124). -/
def FAULT_MSG : List Nat := [70, 65, 85, 76, 84, 10]

/-! ## The file-backed RAM and the memory bus (src lines 238-304)

The virtual RAM is the file e:\rv32ima\vram.bin, accessed through
vm_file_seek / vm_file_read / vm_file_write.  A positional read of
`len` bytes at `pos` transfers `min len (size - pos)` bytes; the bytes
of the destination buffer beyond the transferred count keep their
previous (garbage) contents, which we pass in as `g`.  Writes are
modelled as fully succeeding (the file is extended as needed).
src/main.c discards the transferred-byte counts (`r` and `w`) of every
bus access; store4 even falls off the end without a return statement. -/

/-- A file-backed RAM: byte contents and current file size. -/
structure Vram where
  data : Nat → Nat
  size : Nat

/-- Number of bytes a positional read of `len` bytes at `pos` transfers. -/
def fileReadCount (v : Vram) (pos len : Nat) : Nat := min len (v.size - pos)

/-- Byte `i` of the destination buffer after a read of `len` bytes at
`pos`: file data for transferred positions, pre-existing garbage `g`
beyond the transferred count. -/
def readByte (v : Vram) (g : Nat → Nat) (pos len i : Nat) : Nat :=
  if i < fileReadCount v pos len then v.data (pos + i) % 2 ^ 8 else g i % 2 ^ 8

/-- store4 (src lines 238-246): seek to `ofs` and write the four
little-endian bytes of `val`.  The written-byte count `w` and the api
return value are discarded by the source. -/
def store4 (v : Vram) (ofs val : Nat) : Vram where
  data := fun a =>
    if a = ofs then val % 2 ^ 8
    else if a = ofs + 1 then val / 2 ^ 8 % 2 ^ 8
    else if a = ofs + 2 then val / 2 ^ 16 % 2 ^ 8
    else if a = ofs + 3 then val / 2 ^ 24 % 2 ^ 8
    else v.data a
  size := max v.size (ofs + 4)

/-- load4 (src lines 268-282): offset 0xB8 returns the hardwired
constant 0xFEE6DCE3 without touching the backing file; any other offset
seeks and reads four bytes into `result`, discarding the read-byte
count `r`, and assembles them little-endian.  `g` is the garbage the
uninitialised `result` buffer held before the read. -/
def load4 (v : Vram) (g : Nat → Nat) (ofs : Nat) : Nat :=
  if ofs = 0xB8 then 0xFEE6DCE3
  else
    readByte v g ofs 4 0 + 2 ^ 8 * readByte v g ofs 4 1 +
      2 ^ 16 * readByte v g ofs 4 2 + 2 ^ 24 * readByte v g ofs 4 3

/-- Fault status code of MiniRV32IMAStep: the MINIRV32_POSTEXEC macro
(src line 124) makes the step function return 3 on a fault. -/
def FAULT_CODE : Nat := 3

/-- Contribution of a 4-byte RAM load to the executor: the loaded value
together with the step-status contribution of the access.  Per src line
133 the bus macro MINIRV32_LOAD4 expands to the plain value expression
load4(ofs): the access has no channel to alter MiniRV32IMAStep's return
status, so its status contribution is the neutral 0. -/
def memLoad4Outcome (v : Vram) (g : Nat → Nat) (ofs : Nat) : Nat × Nat :=
  (load4 v g ofs, 0)

/-! ## Claim C1 -/

/-- C1: the claim says a store of v at any RAM offset followed by a
same-width load returns v, the bus being a pure passthrough with no
address treated specially.  The code hardwires 4-byte loads at offset
0xB8 to 0xFEE6DCE3: storing 1 at offset 0xB8 and loading back yields
0xFEE6DCE3, not 1.  (The spec's design notes themselves flag this
branch as a probable bug.) -/
theorem load4_hardwired_0xB8 :
    load4 (store4 (⟨fun _ => 0, RAM_SIZE⟩ : Vram) 0xB8 1) (fun _ => 0) 0xB8 = 0xFEE6DCE3 ∧
    (0xFEE6DCE3 : Nat) ≠ 1 := by
  exact ⟨rfl, by decide⟩

/-! ## Claim C3 -/

/-- C3 counterexample: the claim says a short read from the RAM backing
is detected and surfaced as a Fault return from step.  Reading 4 bytes
at offset 0 of an empty backing transfers 0 bytes (a short read), yet
the access contributes the neutral status 0, not FAULT_CODE: nothing is
surfaced. -/
theorem shortRead_cex :
    fileReadCount (⟨fun _ => 0, 0⟩ : Vram) 0 4 < 4 ∧
    (memLoad4Outcome (⟨fun _ => 0, 0⟩ : Vram) (fun _ => 0) 0).2 ≠ FAULT_CODE := by
  exact ⟨by decide, by decide⟩

/-- C3 amended: short reads and writes on the RAM backing are not
detected at all: load4 discards the transferred-byte count, no bus
access can ever contribute a Fault status to step, and on a short read
the returned word is whatever garbage the result buffer held (two
different garbage buffers yield two different load results on the same
empty backing). -/
theorem shortRead_silently_ignored :
    (∀ (v : Vram) (g : Nat → Nat) (ofs : Nat),
        (memLoad4Outcome v g ofs).2 ≠ FAULT_CODE) ∧
    load4 (⟨fun _ => 0, 0⟩ : Vram) (fun _ => 255) 0 = 0xFFFFFFFF ∧
    load4 (⟨fun _ => 0, 0⟩ : Vram) (fun _ => 0) 0 = 0 := by
  refine ⟨fun v g ofs => ?_, by decide, by decide⟩
  simp [memLoad4Outcome, FAULT_CODE]

/-! ## Serial-input FIFO and the UART MMIO adapter (src lines 427-454)

fifo.h is repository code that is not under src/. -/

/-- Modelled from the spec: SerialInFifo.is_empty.  The FIFO is a list,
oldest element first. -/
def fifo_is_empty (f : List Nat) : Bool := f.isEmpty

/-- Modelled from the spec: SerialInFifo.pop, a single-element pull
returning the oldest element and the remaining FIFO.  (src/main.c only
calls it behind a non-emptiness check; the empty case is unreachable
there and modelled as returning 0.) -/
def fifo_get : List Nat → Nat × List Nat
  | [] => (0, [])
  | x :: xs => (x, xs)

/-- HandleControlLoad (src lines 439-454), the 8250/16550 UART read
side: address 0x10000005 is the line-status register, returning
0x60 | (!fifo_is_empty(serial_in)); address 0x10000000 pops the
serial-input FIFO when it is non-empty; every other case returns 0.
The result pairs the returned value with the FIFO afterwards. -/
def HandleControlLoad (serialIn : List Nat) (addy : Nat) : Nat × List Nat :=
  if addy = 0x10000005 then
    (0x60 ||| (if fifo_is_empty serialIn then 0 else 1), serialIn)
  else if addy = 0x10000000 ∧ fifo_is_empty serialIn = false then
    fifo_get serialIn
  else (0, serialIn)

/-- HandleControlStore (src lines 427-436), the UART write side: a
store to 0x10000000 renders the value with sprintf("%c", val) into a
buffer and hands the buffer to console_str_in.  sprintf writes the
single byte val mod 256 followed by a NUL; console_str_in takes a C
string, so a NUL byte contributes nothing.  The handler returns the
short-circuit sentinel (always 0 in the source) and the console sink
contents afterwards. -/
def HandleControlStore (console : List Nat) (addy val : Nat) : Nat × List Nat :=
  if addy = 0x10000000 then
    (0, console ++ (if val % 2 ^ 8 = 0 then [] else [val % 2 ^ 8]))
  else (0, console)

/-- Modelled from the spec: the routing rule of the memory bus for a
word store by the guest (the executor lives in mini-rv32ima.h, not
under src/).  An address inside [RAM_BASE, RAM_BASE + RAM_SIZE) targets
RAM at offset addr - RAM_BASE through store4; any other address is an
MMIO access dispatched to HandleControlStore via the
MINIRV32_HANDLE_MEM_STORE_CONTROL macro (src line 125) and never
reaches RAM. -/
def guestStore (ram : Vram) (console : List Nat) (addr val : Nat) : Vram × List Nat :=
  if MINIRV32_RAM_IMAGE_OFFSET ≤ addr ∧ addr < MINIRV32_RAM_IMAGE_OFFSET + RAM_SIZE then
    (store4 ram (addr - MINIRV32_RAM_IMAGE_OFFSET) val, console)
  else
    (ram, (HandleControlStore console addr val).2)

/-! ## Claim C4 -/

/-- C4 counterexample: the claim says every byte value v stored to the
UART data address reaches the console sink as the one byte v.  Storing
the byte 0x00 emits nothing: sprintf("%c", 0) produces an empty C
string, so the console sink receives no byte at all. -/
theorem uart_tx_nul_cex :
    (guestStore (⟨fun _ => 0, RAM_SIZE⟩ : Vram) [] 0x10000000 0).2 = [] ∧
    ([] : List Nat) ≠ [0] := by
  exact ⟨by decide, by decide⟩

/-- C4 amended: a guest store of v to the UART data address 0x10000000
leaves every RAM location unchanged, and the console sink receives
exactly the one byte v mod 256 when that byte is nonzero and nothing
when it is zero (the NUL byte is lost in the C-string handoff). -/
theorem uart_tx_byte_exact (ram : Vram) (console : List Nat) (v : Nat) :
    guestStore ram console 0x10000000 v =
      (ram, console ++ (if v % 2 ^ 8 = 0 then [] else [v % 2 ^ 8])) := by
  have h : ¬(MINIRV32_RAM_IMAGE_OFFSET ≤ 0x10000000 ∧
      0x10000000 < MINIRV32_RAM_IMAGE_OFFSET + RAM_SIZE) := by decide
  unfold guestStore
  rw [if_neg h]
  unfold HandleControlStore
  rw [if_pos rfl]

/-! ## Claim C5 -/

/-- C5: a read of the UART line-status register 0x10000005 returns 0x60
when the serial-input FIFO is empty and 0x61 when it is non-empty, and
leaves the FIFO untouched. -/
theorem uart_lsr_value (f : List Nat) :
    HandleControlLoad f 0x10000005 = ((if f.isEmpty then 0x60 else 0x61), f) := by
  cases f with
  | nil => rfl
  | cons a as => simp [HandleControlLoad, fifo_is_empty]

/-! ## Claim C6 -/

/-- C6: a read of the UART data register 0x10000000 removes and returns
the oldest byte of the serial-input FIFO when it is non-empty, and
returns 0 leaving the FIFO unchanged when it is empty. -/
theorem uart_rx_pop :
    (∀ (x : Nat) (xs : List Nat), HandleControlLoad (x :: xs) 0x10000000 = (x, xs)) ∧
    HandleControlLoad ([] : List Nat) 0x10000000 = (0, []) := by
  exact ⟨fun x xs => rfl, rfl⟩

/-! ## The hart core and its initialisation (src lines 142, 338-344) -/

/-- Modelled from the spec: the HartState record (struct
MiniRV32IMAState of mini-rv32ima.h, not under src/), restricted to the
fields src/main.c itself reads or writes: pc, the register file, the
split 64-bit cycle counter and extraflags (whose low two bits are the
privilege).  The remaining CSR fields are never touched by the shim and
are omitted. -/
structure Core where
  pc : Nat
  regs : Nat → Nat
  cyclel : Nat
  cycleh : Nat
  extraflags : Nat

/-- The all-zero core produced by vm_calloc (src line 338). -/
def zeroCore : Core :=
  { pc := 0, regs := fun _ => 0, cyclel := 0, cycleh := 0, extraflags := 0 }

/-- Core setup on VM_MSG_CREATE (src lines 338-344): pc = RAM base,
regs[10] = 0 (hart id), regs[11] = RAM_SIZE - sizeof(struct
MiniRV32IMAState) - DTB_SIZE + MINIRV32_RAM_IMAGE_OFFSET (the
guest-physical DTB address), extraflags |= 3 (Machine mode). -/
def initCore : Core :=
  { zeroCore with
    pc := MINIRV32_RAM_IMAGE_OFFSET,
    regs := fun i =>
      if i = 10 then 0
      else if i = 11 then
        RAM_SIZE - sizeofMiniRV32IMAState - DTB_SIZE + MINIRV32_RAM_IMAGE_OFFSET
      else zeroCore.regs i,
    extraflags := zeroCore.extraflags ||| 3 }

/-- The 64-bit cycle counter read through the pointer cast
`(uint64_t*)&core->cyclel` (src line 172); cyclel is the low half
(little-endian). -/
def cycle64 (c : Core) : Nat := c.cyclel + 2 ^ 32 * c.cycleh

/-- Writing the 64-bit cycle counter back through the same pointer
cast. -/
def setCycle64 (c : Core) (n : Nat) : Core :=
  { c with cyclel := n % 2 ^ 32, cycleh := n / 2 ^ 32 % 2 ^ 32 }

/-! ## The step-driver callback socRun (src lines 169-189) -/

/-- Host-visible state the socRun timer callback touches: the vmstate
flag (-1 startup, 0 pause, 1 run; src lines 51-55), the core, the
lastTime and cycles globals, and the console sink. -/
structure SocState where
  vmstate : Int
  core : Core
  lastTime : Nat
  cycles : Nat
  console : List Nat

/-- socRun (src lines 169-189), parameterised by the step function
(MiniRV32IMAStep lives in mini-rv32ima.h, not under src/; socRun's
behaviour is determined by the status code step returns).  When
vmstate is 1: elapsedUs is the 64-bit cycle counter minus lastTime,
truncated to 32 bits; cycles and lastTime are updated; step runs with
budget INSTRS_PER_FLIP; then the switch on its return value: 0 does
nothing, 1 adds INSTRS_PER_FLIP to the cycle counter, 0x5555 prints
"POWEROFF!\n" and sets vmstate to 0 and then, for want of a break,
falls through into the default case, and the default case prints
"Unknown failure\n".  When vmstate is not 1 the callback does
nothing. -/
def socRunWith (step : Core → Nat → Nat → Core × Nat) (s : SocState) : SocState :=
  if s.vmstate = 1 then
    let cc := cycle64 s.core
    let elapsedUs := (cc / TIME_DIVISOR + 2 ^ 64 - s.lastTime % 2 ^ 64) % 2 ^ 64 % 2 ^ 32
    let s1 : SocState :=
      { s with cycles := cc % 2 ^ 32, lastTime := (s.lastTime + elapsedUs) % 2 ^ 64 }
    let r := step s.core elapsedUs INSTRS_PER_FLIP
    let s2 : SocState := { s1 with core := r.1 }
    if r.2 = 0 then s2
    else if r.2 = 1 then
      { s2 with core := setCycle64 r.1 ((cycle64 r.1 + INSTRS_PER_FLIP) % 2 ^ 64) }
    else if r.2 = 0x5555 then
      { s2 with console := s2.console ++ POWEROFF_MSG ++ UNKNOWN_FAILURE_MSG, vmstate := 0 }
    else { s2 with console := s2.console ++ UNKNOWN_FAILURE_MSG }
  else s

/-- HandleException (src lines 417-425): returns the exception code
unchanged (the hook reclassifies nothing). -/
def HandleException (ir code : Nat) : Nat := code

/-- The MINIRV32_POSTEXEC macro (src line 124): after an instruction
whose execution produced a nonzero trap value, if fail_on_all_faults is
set the macro prints "FAULT\n" and makes MiniRV32IMAStep return 3;
otherwise it runs the retval through HandleException and execution
continues.  The result is (early step return if any, resulting retval,
console bytes emitted). -/
def postexec (failOnAllFaults : Bool) (ir retval : Nat) : Option Nat × Nat × List Nat :=
  if 0 < retval then
    if failOnAllFaults then (some 3, retval, FAULT_MSG)
    else (none, HandleException ir retval, [])
  else (none, retval, [])

/-- A step function that immediately reports the syscon shutdown
status 0x5555. -/
def stepShutdown : Core → Nat → Nat → Core × Nat := fun c _ _ => (c, 0x5555)

/-- A step function that immediately reports the fault status 3. -/
def stepFault : Core → Nat → Nat → Core × Nat := fun c _ _ => (c, 3)

/-- A step function that retires one cycle and reports status 0; its
effect on the core is observable, which lets a theorem show a tick
that must do nothing indeed does nothing. -/
def stepBump : Core → Nat → Nat → Core × Nat :=
  fun c _ _ => (setCycle64 c ((cycle64 c + 1) % 2 ^ 64), 0)

/-- The host state right after startup once the user presses continue:
freshly initialised core, zero counters, empty console, vmstate
running. -/
def s0 : SocState :=
  { vmstate := 1, core := initCore, lastTime := 0, cycles := 0, console := [] }

/-- The host state while paused (vmstate 0). -/
def sPause : SocState :=
  { vmstate := 0, core := initCore, lastTime := 0, cycles := 0, console := [] }

/-! ## Claim C2 -/

/-- C2: the claim says the 0x5555 shutdown status makes the driver emit
exactly "POWEROFF!\n" and nothing else, and halt.  The code does halt
(vmstate becomes 0, so a subsequent tick is a no-op), but the missing
break after case 0x5555 makes it fall through into the default case:
the console receives "POWEROFF!\n" followed by "Unknown failure\n",
which is not the claimed exact output. -/
theorem shutdown_prints_extra_message :
    (socRunWith stepShutdown s0).console = POWEROFF_MSG ++ UNKNOWN_FAILURE_MSG ∧
    (socRunWith stepShutdown s0).vmstate = 0 ∧
    socRunWith stepBump (socRunWith stepShutdown s0) = socRunWith stepShutdown s0 ∧
    POWEROFF_MSG ++ UNKNOWN_FAILURE_MSG ≠ POWEROFF_MSG := by
  exact ⟨rfl, rfl, rfl, by decide⟩

/-! ## Claim C8 -/

/-- C8 counterexample: the claim says that with fail-on-all-faults
configured a faulting instruction makes step return Fault and the host
log and halt.  With a step that returns the fault status 3 the driver
does log "Unknown failure\n", but vmstate stays 1 and the very next
tick runs step again (logging once more): the step driver is not
halted. -/
theorem fault_no_halt_cex :
    (socRunWith stepFault s0).vmstate = 1 ∧
    (socRunWith stepFault s0).console = UNKNOWN_FAILURE_MSG ∧
    (socRunWith stepFault (socRunWith stepFault s0)).console =
      UNKNOWN_FAILURE_MSG ++ UNKNOWN_FAILURE_MSG := by
  exact ⟨rfl, rfl, rfl⟩

/-- C8 amended: with fail_on_all_faults set, an instruction raising an
exception makes step return the Fault status 3 after emitting "FAULT\n"
(the MINIRV32_POSTEXEC macro), and the host driver then logs the
diagnostic "Unknown failure\n" but does not halt the step driver:
vmstate remains 1, so later ticks keep executing. -/
theorem fault_logged_not_halted (retval : Nat) (hr : 0 < retval)
    (step : Core → Nat → Nat → Core × Nat) (s : SocState)
    (hs : s.vmstate = 1) (hstep : ∀ c e n, (step c e n).2 = 3) :
    postexec true 0 retval = (some 3, retval, FAULT_MSG) ∧
    (socRunWith step s).vmstate = 1 ∧
    (socRunWith step s).console = s.console ++ UNKNOWN_FAILURE_MSG := by
  refine ⟨?_, ?_, ?_⟩
  · unfold postexec
    rw [if_pos hr, if_pos rfl]
  · simp [socRunWith, hs, hstep]
  · simp [socRunWith, hs, hstep]

/-- Witness for fault_logged_not_halted at retval = 3, step = stepFault
and the concrete startup state s0. -/
theorem fault_logged_not_halted_witness :
    0 < 3 ∧
    (postexec true 0 3 = (some 3, 3, FAULT_MSG) ∧
      (socRunWith stepFault s0).vmstate = 1 ∧
      (socRunWith stepFault s0).console = s0.console ++ UNKNOWN_FAILURE_MSG) :=
  ⟨by decide, fault_logged_not_halted 3 (by decide) stepFault s0 rfl (fun _ _ _ => rfl)⟩

/-! ## Claim C9 -/

/-- C9: at construction the hart state has pc = RAM_BASE, regs[10] = 0,
regs[11] = RAM_BASE + RAM_SIZE - sizeof(HartState) - DTB_SIZE (the
guest-physical DTB address) and the privilege field (low two bits of
extraflags) equal to 3, Machine mode. -/
theorem initCore_reset_values :
    initCore.pc = MINIRV32_RAM_IMAGE_OFFSET ∧
    initCore.regs 10 = 0 ∧
    initCore.regs 11 =
      MINIRV32_RAM_IMAGE_OFFSET + RAM_SIZE - sizeofMiniRV32IMAState - DTB_SIZE ∧
    initCore.extraflags % 4 = 3 := by
  exact ⟨rfl, rfl, by decide, by decide⟩

/-! ## Claim C10 -/

/-- C10: on a timer tick in which vmstate is not 1 (startup or pause),
socRun returns without running step and leaves the whole host state —
core, lastTime, cycles, console and vmstate — unchanged, whatever the
step function would have done. -/
theorem socRun_pause_frame (step : Core → Nat → Nat → Core × Nat)
    (s : SocState) (h : s.vmstate ≠ 1) : socRunWith step s = s := by
  unfold socRunWith
  rw [if_neg h]

/-- Witness for socRun_pause_frame at the paused state and a step
function with an observable effect. -/
theorem socRun_pause_frame_witness :
    sPause.vmstate ≠ 1 ∧ socRunWith stepBump sPause = sPause :=
  ⟨by decide, socRun_pause_frame stepBump sPause (by decide)⟩

/-! ## The debug CSR sinks (src lines 456-470)

HandleOtherCSRWrite renders the written value with sprintf("%d", value)
for CSR 0x136 and sprintf("%08x", value) for CSR 0x137 and hands the
buffer to console_str_in.  The value argument is a 32-bit unsigned
quantity, but %d converts it as a signed int: values at or above 2^31
print as negative numbers. -/

/-- Digit-emission loop of a decimal conversion: prepend the decimal
digits (as ASCII byte codes) of `n` in front of `acc`, spending one
unit of fuel per digit.  With fuel at least n this is exactly the
digit string sprintf produces for a nonzero n. -/
def natDecAux : Nat → Nat → List Nat → List Nat
  | 0, _, acc => acc
  | f + 1, n, acc => if n = 0 then acc else natDecAux f (n / 10) ((48 + n % 10) :: acc)

/-- ASCII byte codes of the unsigned decimal rendering of n (what
sprintf("%u", n) would print, and what "the decimal rendering of v"
means read as an unsigned 32-bit value). -/
def natDec (n : Nat) : List Nat := if n = 0 then [48] else natDecAux n n []

/-- Byte codes sprintf("%d", value) produces for a 32-bit value: the
value is converted as a signed int, so values at or above 2^31 print
as minus (byte 45) followed by the decimal rendering of 2^32 - value. -/
def sprintfD (v : Nat) : List Nat :=
  if v < 2 ^ 31 then natDec v else 45 :: natDec (2 ^ 32 - v)

/-- ASCII byte code of a lowercase hexadecimal digit (0-9 then a-f). -/
def hexDigitChar (x : Nat) : Nat := if x < 10 then 48 + x else 87 + x

/-- Byte codes sprintf("%08x", value) produces for a 32-bit value: the
eight nibbles, most significant first, as lowercase hex digits
(16 ^ 7 = 268435456 and so on down to 16). -/
def sprintfX8 (v : Nat) : List Nat :=
  [hexDigitChar (v / 268435456 % 16), hexDigitChar (v / 16777216 % 16),
   hexDigitChar (v / 1048576 % 16), hexDigitChar (v / 65536 % 16),
   hexDigitChar (v / 4096 % 16), hexDigitChar (v / 256 % 16),
   hexDigitChar (v / 16 % 16), hexDigitChar (v % 16)]

/-- HandleOtherCSRWrite (src lines 456-470): CSR 0x136 prints the value
as %d, CSR 0x137 prints it as %08x, anything else does nothing.  The
source tests the two CSR numbers in two independent ifs; the result is
the console sink contents afterwards (the image argument of the source
function is unused there and omitted). -/
def HandleOtherCSRWrite (console : List Nat) (csrno value : Nat) : List Nat :=
  if csrno = 0x137 then
    (if csrno = 0x136 then console ++ sprintfD value else console) ++ sprintfX8 value
  else
    if csrno = 0x136 then console ++ sprintfD value else console

/-- Value of a string of ASCII decimal digit codes, read left to
right. -/
def decodeDec (l : List Nat) : Nat := l.foldl (fun a d => 10 * a + (d - 48)) 0

/-- Signed reading of a rendered decimal: a leading minus (byte 45)
negates the value of the remaining digits. -/
def sdecodeDec (l : List Nat) : Int :=
  if l.head? = some 45 then -((decodeDec l.tail : Nat) : Int) else ((decodeDec l : Nat) : Int)

/-- Value of a string of lowercase ASCII hex digit codes, read left to
right. -/
def decodeHex8 (l : List Nat) : Nat :=
  l.foldl (fun a d => 16 * a + (if d < 58 then d - 48 else d - 87)) 0

/-- Two's-complement reading of a 32-bit value. -/
def sintVal (v : Nat) : Int := if v < 2 ^ 31 then (v : Int) else (v : Int) - 2 ^ 32

/-- Folding the decimal decoder over the digits natDecAux prepends to
acc is folding it over acc starting from n, provided the fuel covers
n. -/
theorem decodeDec_natDecAux (f : Nat) : ∀ n acc, n ≤ f →
    List.foldl (fun a d => 10 * a + (d - 48)) 0 (natDecAux f n acc) =
      List.foldl (fun a d => 10 * a + (d - 48)) n acc := by
  induction f with
  | zero =>
    intro n acc h
    obtain rfl : n = 0 := Nat.le_zero.mp h
    rfl
  | succ f ih =>
    intro n acc h
    by_cases h0 : n = 0
    · subst h0
      simp [natDecAux]
    · have hrec : natDecAux (f + 1) n acc = natDecAux f (n / 10) ((48 + n % 10) :: acc) := by
        simp [natDecAux, h0]
      have hdiv : n / 10 ≤ f := by omega
      rw [hrec, ih (n / 10) _ hdiv, List.foldl_cons]
      have hn : 10 * (n / 10) + (48 + n % 10 - 48) = n := by omega
      rw [hn]

/-- The decimal renderer is correct: decoding the rendered digits gives
back the value. -/
theorem decodeDec_natDec (n : Nat) : decodeDec (natDec n) = n := by
  unfold decodeDec natDec
  by_cases h : n = 0
  · subst h
    rfl
  · rw [if_neg h, decodeDec_natDecAux n n [] (le_refl n)]
    rfl

/-- Every byte the decimal renderer emits is an ASCII digit code, in
particular at least 48. -/
theorem natDecAux_digits_ge (f : Nat) : ∀ n acc, (∀ d ∈ acc, 48 ≤ d) →
    ∀ d ∈ natDecAux f n acc, 48 ≤ d := by
  induction f with
  | zero =>
    intro n acc hacc
    exact hacc
  | succ f ih =>
    intro n acc hacc
    by_cases h0 : n = 0
    · subst h0
      simpa [natDecAux] using hacc
    · have hrec : natDecAux (f + 1) n acc = natDecAux f (n / 10) ((48 + n % 10) :: acc) := by
        simp [natDecAux, h0]
      rw [hrec]
      refine ih (n / 10) _ ?_
      intro d hd
      rcases List.mem_cons.mp hd with h | h
      · omega
      · exact hacc d h

/-- Bytes of natDec are at least 48 (so never the minus sign 45). -/
theorem natDec_ge (n : Nat) : ∀ d ∈ natDec n, 48 ≤ d := by
  unfold natDec
  by_cases h : n = 0
  · subst h
    intro d hd
    simp at hd
    omega
  · rw [if_neg h]
    exact natDecAux_digits_ge n n [] (by simp)

/-- Reading the %d rendering back as a signed decimal numeral yields
exactly the two's-complement value of the written 32-bit quantity. -/
theorem sdecodeDec_sprintfD (v : Nat) (h : v < 2 ^ 32) :
    sdecodeDec (sprintfD v) = sintVal v := by
  unfold sprintfD sintVal
  by_cases h31 : v < 2 ^ 31
  · rw [if_pos h31, if_pos h31]
    unfold sdecodeDec
    rw [if_neg ?hne]
    case hne =>
      cases hl : natDec v with
      | nil => simp
      | cons d l =>
        have hd : 48 ≤ d := natDec_ge v d (by rw [hl]; exact List.mem_cons_self d l)
        simp only [List.head?_cons]
        intro hcon
        have : d = 45 := by exact Option.some.inj hcon
        omega
    rw [decodeDec_natDec]
  · rw [if_neg h31, if_neg h31]
    unfold sdecodeDec
    simp only [List.head?_cons, List.tail_cons]
    rw [if_pos trivial, decodeDec_natDec]
    omega

/-- Mapping a hex digit byte back to its nibble value. -/
theorem hexRoundTrip (x : Nat) (h : x < 16) :
    (if hexDigitChar x < 58 then hexDigitChar x - 48 else hexDigitChar x - 87) = x := by
  unfold hexDigitChar
  by_cases h10 : x < 10
  · rw [if_pos h10, if_pos (by omega)]
    omega
  · rw [if_neg h10, if_neg (by omega)]
    omega

/-- Reading the %08x rendering back as a hex numeral yields exactly the
written 32-bit value. -/
theorem decodeHex8_sprintfX8 (v : Nat) (h : v < 2 ^ 32) :
    decodeHex8 (sprintfX8 v) = v := by
  have h1 : v / 268435456 % 16 < 16 := Nat.mod_lt _ (by norm_num)
  have h2 : v / 16777216 % 16 < 16 := Nat.mod_lt _ (by norm_num)
  have h3 : v / 1048576 % 16 < 16 := Nat.mod_lt _ (by norm_num)
  have h4 : v / 65536 % 16 < 16 := Nat.mod_lt _ (by norm_num)
  have h5 : v / 4096 % 16 < 16 := Nat.mod_lt _ (by norm_num)
  have h6 : v / 256 % 16 < 16 := Nat.mod_lt _ (by norm_num)
  have h7 : v / 16 % 16 < 16 := Nat.mod_lt _ (by norm_num)
  have h8 : v % 16 < 16 := Nat.mod_lt _ (by norm_num)
  have hv : v < 4294967296 := by
    norm_num at h
    exact h
  unfold decodeHex8 sprintfX8
  simp only [List.foldl_cons, List.foldl_nil]
  rw [hexRoundTrip _ h1, hexRoundTrip _ h2, hexRoundTrip _ h3, hexRoundTrip _ h4,
    hexRoundTrip _ h5, hexRoundTrip _ h6, hexRoundTrip _ h7, hexRoundTrip _ h8]
  omega

/-! ## Claim C7 -/

/-- C7 counterexample: the claim says a write of v to CSR 0x136 emits
the decimal rendering of v.  The source renders with %d, which converts
the 32-bit value as signed: writing 4294967295 emits "-1" (bytes 45,
49), not the decimal rendering "4294967295" of the value. -/
theorem csr_decimal_signed_cex :
    HandleOtherCSRWrite [] 0x136 4294967295 = [45, 49] ∧
    natDec 4294967295 = [52, 50, 57, 52, 57, 54, 55, 50, 57, 53] ∧
    HandleOtherCSRWrite [] 0x136 4294967295 ≠ natDec 4294967295 := by
  exact ⟨by decide, by decide, by decide⟩

/-- C7 amended: a CSR write of v to 0x136 emits the decimal rendering
of v read as a signed two's-complement 32-bit integer (the %d
conversion), a CSR write of v to 0x137 emits exactly the 8-digit
lowercase hexadecimal rendering of v, and a write to any other CSR
number through this hook changes nothing; the emitted numerals decode
back to the written value. -/
theorem csr_debug_sinks (console : List Nat) (v : Nat) (h : v < 2 ^ 32) :
    HandleOtherCSRWrite console 0x136 v = console ++ sprintfD v ∧
    HandleOtherCSRWrite console 0x137 v = console ++ sprintfX8 v ∧
    sdecodeDec (sprintfD v) = sintVal v ∧
    decodeHex8 (sprintfX8 v) = v ∧
    (sprintfX8 v).length = 8 ∧
    (∀ csrno, csrno ≠ 0x136 → csrno ≠ 0x137 → HandleOtherCSRWrite console csrno v = console) := by
  refine ⟨rfl, rfl, sdecodeDec_sprintfD v h, decodeHex8_sprintfX8 v h, rfl, ?_⟩
  intro csrno hn1 hn2
  unfold HandleOtherCSRWrite
  rw [if_neg hn2, if_neg hn1]

/-- Witness for csr_debug_sinks at v = 4294967295 (where the signed
reading is -1) and an empty console. -/
theorem csr_debug_sinks_witness :
    4294967295 < 2 ^ 32 ∧ sdecodeDec (sprintfD 4294967295) = sintVal 4294967295 :=
  ⟨by decide, (csr_debug_sinks [] 4294967295 (by decide)).2.2.1⟩
